import Mathlib

/-!
Verification development for the worklet core of react-native-worklets-core
(`src/cpp/WKTJsiWorklet.h`).  The JSI value graph is shallowly embedded:
script values are `JsVal`, objects live in an explicit heap inside `Runtime`,
and every operation of the source (descriptor construction, the
`isDecoratedAsWorklet` predicate, materialization of the compiled callable and
the invocation paths of `JsiWorklet::call` / `WorkletInvoker::call`) is
translated into an executable Lean function over that state.
-/

set_option maxRecDepth 4096

namespace RNWorklet

/-- Script values as seen through the JSI API.  Objects (including function
objects) are references into the runtime's heap. -/
inductive JsVal where
  | undefined
  | null
  | boolean (b : Bool)
  | number (n : Int)
  | string (s : String)
  | objRef (id : Nat)
deriving Repr, DecidableEq

/-- One heap object: whether it is a function object, plus its properties. -/
structure JsObjectRec where
  isFunction : Bool
  props : List (String × JsVal)
deriving Repr, DecidableEq

/-- Model of a `jsi::Runtime`: an object heap, the global object's
properties, and an allocation counter for fresh objects. -/
structure Runtime where
  heap : List (Nat × JsObjectRec)
  globalProps : List (String × JsVal)
  nextId : Nat
deriving Repr, DecidableEq

/-- First-match lookup in an association list, with a default for a missing
key (JS property access on an absent property yields `undefined`). -/
def lookupD {α : Type} [DecidableEq α] {β : Type} (d : β) : List (α × β) → α → β
  | [], _ => d
  | (k, v) :: rest, key => if k = key then v else lookupD d rest key

/-- Replace the first binding of a key, or append a new binding. -/
def updateA {α : Type} [DecidableEq α] {β : Type} : List (α × β) → α → β → List (α × β)
  | [], key, v => [(key, v)]
  | (k, w) :: rest, key, v =>
      if k = key then (key, v) :: rest else (k, w) :: updateA rest key v

theorem lookupD_updateA_self {α : Type} [DecidableEq α] {β : Type} (d : β)
    (l : List (α × β)) (k : α) (v : β) : lookupD d (updateA l k v) k = v := by
  induction l with
  | nil => simp [updateA, lookupD]
  | cons hd tl ih =>
      obtain ⟨k0, v0⟩ := hd
      by_cases h : k0 = k
      · simp [updateA, lookupD, h]
      · simp [updateA, lookupD, h, ih]

theorem lookupD_updateA_ne {α : Type} [DecidableEq α] {β : Type} (d : β)
    (l : List (α × β)) (k key : α) (v : β) (h : k ≠ key) :
    lookupD d (updateA l k v) key = lookupD d l key := by
  induction l with
  | nil => simp [updateA, lookupD, h]
  | cons hd tl ih =>
      obtain ⟨k0, v0⟩ := hd
      by_cases h0 : k0 = k
      · subst h0
        simp [updateA, lookupD, h]
      · by_cases h1 : k0 = key
        · subst h1
          simp [updateA, lookupD, h0, Ne.symm h]
        · simp [updateA, lookupD, h0, h1, ih]

/-- Property name constants from `WKTJsiWorklet.h`. -/
def PropNameWorkletHash : String := "__workletHash"

def PropNameWorkletInitData : String := "__initData"

def PropNameWorkletInitDataCode : String := "code"

def PropNameJsThis : String := "jsThis"

def PropNameWorkletInitDataLocation : String := "location"

def PropNameWorkletLocation : String := "__location"

def PropNameWorkletAsString : String := "asString"

def PropNameWorkletClosure : String := "_closure"

def PropNameWorkletClosureLegacy : String := "__closure"

def PropFunctionName : String := "name"

/-- `jsi::Value::isObject`. -/
def JsVal.isObject : JsVal → Bool
  | .objRef _ => true
  | _ => false

/-- `jsi::Value::isString`. -/
def JsVal.isString : JsVal → Bool
  | .string _ => true
  | _ => false

/-- `value.isUndefined() || value.isNull()`, the emptiness test the source
applies to closure values. -/
def JsVal.isUndefinedOrNull : JsVal → Bool
  | .undefined => true
  | .null => true
  | _ => false

/-- `value.asString(runtime).utf8(runtime)` on a value already known to be a
string (defaults to the empty string otherwise; the source only calls it
after an `isString` check). -/
def JsVal.asStringD : JsVal → String
  | .string s => s
  | _ => ""

/-- Dereference an object id in the heap (a dangling id reads as an empty
non-function object). -/
def heapGet (h : List (Nat × JsObjectRec)) (i : Nat) : JsObjectRec :=
  lookupD { isFunction := false, props := [] } h i

/-- `obj.getProperty(runtime, name)`: property access through a value.  A JS
property that is absent reads as `undefined`. -/
def getProperty (rt : Runtime) (v : JsVal) (name : String) : JsVal :=
  match v with
  | .objRef i => lookupD JsVal.undefined (heapGet rt.heap i).props name
  | _ => JsVal.undefined

/-- `value.asObject(runtime).isFunction(runtime)` guarded by `isObject`. -/
def isFunctionObj (rt : Runtime) (v : JsVal) : Bool :=
  match v with
  | .objRef i => (heapGet rt.heap i).isFunction
  | _ => false

/-- C-locale `std::isspace`: space, tab, newline, vertical tab, form feed,
carriage return. -/
def isSpaceC (c : Char) : Bool :=
  c = ' ' || c = '\t' || c = '\n' || c = '\x0b' || c = '\x0c' || c = '\r'

/-- The whitespace-only loop of `createWorklet` step 3 and of
`evaluteJavascriptInWorkletRuntime`: true iff no character fails
`std::isspace` (an empty string counts as whitespace-only). -/
def isWhitespaceOnly (s : String) : Bool :=
  s.toList.all isSpaceC

/-- Length of a string after trimming leading and trailing whitespace.  This
is the quantity the specification's validation sentence speaks about; the
source itself never trims. -/
def trimmedLength (s : String) : Nat :=
  ((s.toList.dropWhile isSpaceC).reverse.dropWhile isSpaceC).length

/-- A raised `jsi::JSError`, identified by its message. -/
structure JSError where
  message : String
deriving Repr, DecidableEq

/-- The diagnostic raised by `createWorklet` step 3 when the code fails
emptiness validation (the spec's ValidationError). -/
def workletEmptyCodeMessage : String :=
  "Failed to create Worklet, the provided code is empty. Tips:\n" ++
  "* Is the babel plugin correctly installed?\n" ++
  "* If you are using react-native-reanimated, make sure the " ++
  "react-native-reanimated plugin does not override the " ++
  "react-native-worklets-core/plugin.\n" ++
  "* Make sure the JS Worklet contains a \"" ++
  PropNameWorkletInitDataCode ++
  "\" property with the function\x27s code."

/-- The hard error raised when the constructor argument is not a function. -/
def workletNotAFunctionMessage : String :=
  "Worklets must be initialized from a valid function."

/-- `JsiWrapper::wrap`: builds the environment-independent closure snapshot.
Modelled as the identity on the captured value (the snapshot stores the
value tree it was built from). -/
def JsiWrapper.wrap (v : JsVal) : JsVal := v

/-- `JsiWrapper::unwrap`: re-materializes a snapshot, yielding the stored
value tree. -/
def JsiWrapper.unwrap (v : JsVal) : JsVal := v

/-- The state of a `JsiWorklet` after construction (its private fields). -/
structure JsiWorklet where
  isWorklet : Bool
  code : String
  location : String
  name : String
  isRea30Compat : Bool
  closureWrapper : Option JsVal
deriving Repr, DecidableEq

/-- Field state at entry of `createWorklet` (after the reset assignments; the
member initializer of `_name` is `"fn"`). -/
def initialWorklet : JsiWorklet :=
  { isWorklet := false, code := "", location := "", name := "fn",
    isRea30Compat := false, closureWrapper := none }

/-- Steps 3-5 of `JsiWorklet::createWorklet`: emptiness validation, optional
closure extraction, optional name extraction.  `w` carries the code,
location and encoding variant selected by steps 1-2. -/
def finishWorklet (rt : Runtime) (func : JsVal) (w : JsiWorklet) :
    Except JSError JsiWorklet :=
  let isCodeEmpty0 := isWhitespaceOnly w.code
  let isCodeEmpty :=
    if !isCodeEmpty0 && decide (w.code.length ≤ 3) then true else isCodeEmpty0
  if isCodeEmpty then
    Except.error { message := workletEmptyCodeMessage }
  else
    let closure0 := getProperty rt func PropNameWorkletClosure
    let closure :=
      if closure0.isUndefinedOrNull then
        getProperty rt func PropNameWorkletClosureLegacy
      else closure0
    let w1 :=
      if closure.isUndefinedOrNull then { w with closureWrapper := none }
      else { w with closureWrapper := some (JsiWrapper.wrap closure) }
    let nameProp := getProperty rt func PropFunctionName
    let w2 :=
      if nameProp.isString then { w1 with name := nameProp.asStringD }
      else { w1 with name := "fn" }
    Except.ok { w2 with isWorklet := true }

/-- `JsiWorklet::createWorklet(runtime, func)` (the function overload):
encoding selection (Modern `__initData`, then Legacy `asString`/`__location`)
followed by validation and extraction.  A soft parse failure returns the
fields as they stood, with `_isWorklet` still false. -/
def createWorkletFromFunc (rt : Runtime) (func : JsVal) :
    Except JSError JsiWorklet :=
  let initDataProp := getProperty rt func PropNameWorkletInitData
  if initDataProp.isObject then
    let locationProp := getProperty rt initDataProp PropNameWorkletInitDataLocation
    if locationProp.isString then
      let codeProp := getProperty rt initDataProp PropNameWorkletInitDataCode
      if codeProp.isString then
        finishWorklet rt func
          { initialWorklet with
              location := locationProp.asStringD,
              code := codeProp.asStringD,
              isRea30Compat := true }
      else
        Except.ok { initialWorklet with location := locationProp.asStringD }
    else
      Except.ok initialWorklet
  else
    let asStringProp := getProperty rt func PropNameWorkletAsString
    let locationProp := getProperty rt func PropNameWorkletLocation
    if asStringProp.isString && locationProp.isString then
      finishWorklet rt func
        { initialWorklet with
            code := asStringProp.asStringD,
            location := locationProp.asStringD,
            isRea30Compat := false }
    else
      Except.ok initialWorklet

/-- `JsiWorklet::createWorklet(runtime, arg)` (the value overload): hard
error unless the argument is a function object. -/
def createWorklet (rt : Runtime) (arg : JsVal) : Except JSError JsiWorklet :=
  if !arg.isObject || !isFunctionObj rt arg then
    Except.error { message := workletNotAFunctionMessage }
  else
    createWorkletFromFunc rt arg

/-- The code string selected by the encoding-selection phase of
`createWorklet`, or `none` when parsing fails softly before validation.
This is the projection of `createWorkletFromFunc` used to state where the
validation error can fire. -/
def parsedCode (rt : Runtime) (func : JsVal) : Option String :=
  let initDataProp := getProperty rt func PropNameWorkletInitData
  if initDataProp.isObject then
    let locationProp := getProperty rt initDataProp PropNameWorkletInitDataLocation
    if locationProp.isString then
      let codeProp := getProperty rt initDataProp PropNameWorkletInitDataCode
      if codeProp.isString then some codeProp.asStringD else none
    else none
  else
    let asStringProp := getProperty rt func PropNameWorkletAsString
    let locationProp := getProperty rt func PropNameWorkletLocation
    if asStringProp.isString && locationProp.isString then
      some asStringProp.asStringD
    else none

/-- Did construction raise? -/
def resultRaises : Except JSError JsiWorklet → Bool
  | .error _ => true
  | .ok _ => false

/-- `isWorklet()` of the constructed descriptor (false when construction
raised). -/
def resultIsWorklet : Except JSError JsiWorklet → Bool
  | .ok w => w.isWorklet
  | .error _ => false

/-- Encoding variant of the constructed descriptor (`_isRea30Compat`). -/
def resultIsModern : Except JSError JsiWorklet → Bool
  | .ok w => w.isRea30Compat
  | .error _ => false

/-- `getLocation()` of the constructed descriptor. -/
def resultLocation : Except JSError JsiWorklet → String
  | .ok w => w.location
  | .error _ => ""

/-- Body of `JsiWorklet::isDecoratedAsWorklet(runtime, func)` (the function
overload): hash marker, closure under either name, then init data or the
legacy stringified source. -/
def isDecoratedAsWorkletFunc (rt : Runtime) (func : JsVal) : Bool :=
  let hashProp := getProperty rt func PropNameWorkletHash
  if hashProp.isString then true
  else
    let closure0 := getProperty rt func PropNameWorkletClosure
    let closure :=
      if closure0.isUndefinedOrNull then
        getProperty rt func PropNameWorkletClosureLegacy
      else closure0
    if closure.isUndefinedOrNull then false
    else
      let initData := getProperty rt func PropNameWorkletInitData
      if !initData.isObject then
        let asString := getProperty rt func PropNameWorkletAsString
        if !asString.isString then false else true
      else true

/-- `JsiWorklet::isDecoratedAsWorklet(runtime, value)` (the value overload):
only function objects can be decorated.  Total, so it returns a boolean on
every input and never raises. -/
def isDecoratedAsWorklet (rt : Runtime) (value : JsVal) : Bool :=
  if !value.isObject then false
  else if !isFunctionObj rt value then false
  else isDecoratedAsWorkletFunc rt value

/-- Semantics of `runtime.evaluateJavaScript` supplied by the engine: given
the current runtime state and a script text, either a result value or a
raised `JSError`, plus the runtime state afterwards. -/
def EvalFn : Type :=
  Runtime → String → (Except JSError JsVal) × Runtime

/-- `JsiWorklet::evaluteJavascriptInWorkletRuntime`: skip empty or tiny code,
wrap the source in a grouping form, evaluate, and swallow every raised
error into `undefined`.  It never raises. -/
def evaluteJavascriptInWorkletRuntime (evalJs : EvalFn) (rt : Runtime)
    (code : String) : JsVal × Runtime :=
  let isEmpty := isWhitespaceOnly code
  if isEmpty || decide (code.length ≤ 3) then (JsVal.undefined, rt)
  else
    let wrappedCode := "(" ++ code ++ "\n)"
    match evalJs rt wrappedCode with
    | (Except.ok v, rt1) => (v, rt1)
    | (Except.error _, rt1) => (JsVal.undefined, rt1)

/-- Result of `JsiWorklet::createWorkletJsFunction`: either the callable the
evaluation produced, or the inert `noopWorklet` host function. -/
inductive WorkletJsFunction where
  | real (f : JsVal)
  | noop
deriving Repr, DecidableEq

/-- The host function installed as `noopWorklet`: ignores its arguments and
returns `undefined`. -/
def noopWorkletCall (_args : List JsVal) : JsVal :=
  JsVal.undefined

/-- `JsiWorklet::createWorkletJsFunction`: evaluate the descriptor's code and
fall back to `noopWorklet` when evaluation raised, did not return an
object, or returned a non-callable object.  Total: materialization never
propagates an error. -/
def createWorkletJsFunction (evalJs : EvalFn) (rt : Runtime) (code : String) :
    WorkletJsFunction × Runtime :=
  let evaluated := evaluteJavascriptInWorkletRuntime evalJs rt code
  if !evaluated.1.isObject then (WorkletJsFunction.noop, evaluated.2)
  else if !isFunctionObj evaluated.2 evaluated.1 then
    (WorkletJsFunction.noop, evaluated.2)
  else (WorkletJsFunction.real evaluated.1, evaluated.2)

/-- Behaviour of a materialized callable: receiver, argument list and runtime
state in; a result (or raised error) and the runtime state afterwards out. -/
def CallFn : Type :=
  JsVal → List JsVal → Runtime → (Except JSError JsVal) × Runtime

/-- `jsi::Object(runtime)`: allocate a fresh plain object. -/
def allocObject (rt : Runtime) : Nat × Runtime :=
  (rt.nextId,
   { rt with
       heap := updateA rt.heap rt.nextId { isFunction := false, props := [] },
       nextId := rt.nextId + 1 })

/-- `obj.setProperty(runtime, p, v)` on the object with id `i`. -/
def setObjProp (rt : Runtime) (i : Nat) (p : String) (v : JsVal) : Runtime :=
  let o := heapGet rt.heap i
  { rt with heap := updateA rt.heap i { o with props := updateA o.props p v } }

/-- Read a property of the heap object with id `i`. -/
def getObjProp (rt : Runtime) (i : Nat) (p : String) : JsVal :=
  lookupD JsVal.undefined (heapGet rt.heap i).props p

/-- `runtime.global().getProperty(runtime, p)`. -/
def getGlobalProp (rt : Runtime) (p : String) : JsVal :=
  lookupD JsVal.undefined rt.globalProps p

/-- `runtime.global().setProperty(runtime, p, v)`. -/
def setGlobalProp (rt : Runtime) (p : String) (v : JsVal) : Runtime :=
  { rt with globalProps := updateA rt.globalProps p v }

/-- The saved state of a `JsThisWrapper` guard. -/
structure JsThisWrapper where
  oldThis : JsVal
deriving Repr, DecidableEq

/-- `JsThisWrapper`'s constructor: remember the global `jsThis` and install
the new ambient this. -/
def JsThisWrapper.acquire (rt : Runtime) (thisValue : JsVal) :
    JsThisWrapper × Runtime :=
  ({ oldThis := getGlobalProp rt PropNameJsThis },
   setGlobalProp rt PropNameJsThis thisValue)

/-- `JsThisWrapper`'s destructor: restore the saved global `jsThis`.  In the
source this runs during stack unwinding as well, so the model applies it on
both the normal and the raising path. -/
def JsThisWrapper.release (w : JsThisWrapper) (rt : Runtime) : Runtime :=
  setGlobalProp rt PropNameJsThis w.oldThis

/-- The `unwrappedClosure` computed at the top of `JsiWorklet::call`. -/
def unwrappedClosureOf (closureWrapper : Option JsVal) : JsVal :=
  match closureWrapper with
  | some w => JsiWrapper.unwrap w
  | none => JsVal.undefined

/-- `JsiWorklet::call`: unwrap the closure, then branch on the encoding
variant.  Modern: reuse `thisValue` as the call context when it is an
object (else allocate a fresh one), dual-write the closure, invoke with
that receiver.  Legacy: build a fresh `jsThis` object, dual-write the
closure, install it as the global ambient this for the duration of the
call, invoke with `thisValue` as receiver only when it is an object, and
restore the previous ambient this unconditionally. -/
def JsiWorklet.callImpl (isRea30Compat : Bool) (closureWrapper : Option JsVal)
    (workletFunction : CallFn) (thisValue : JsVal) (args : List JsVal)
    (rt : Runtime) : (Except JSError JsVal) × Runtime :=
  let unwrappedClosure := unwrappedClosureOf closureWrapper
  if isRea30Compat then
    let resolved : Nat × Runtime :=
      match thisValue with
      | JsVal.objRef i => (i, rt)
      | _ => allocObject rt
    let ctxId := resolved.1
    let rt1 := resolved.2
    let rt2 :=
      if unwrappedClosure.isUndefinedOrNull then rt1
      else
        setObjProp
          (setObjProp rt1 ctxId PropNameWorkletClosure unwrappedClosure)
          ctxId PropNameWorkletClosureLegacy unwrappedClosure
    workletFunction (JsVal.objRef ctxId) args rt2
  else
    let alloc := allocObject rt
    let jsThisId := alloc.1
    let rt1 := alloc.2
    let rt2 :=
      if unwrappedClosure.isUndefinedOrNull then rt1
      else
        setObjProp
          (setObjProp rt1 jsThisId PropNameWorkletClosure unwrappedClosure)
          jsThisId PropNameWorkletClosureLegacy unwrappedClosure
    let acq := JsThisWrapper.acquire rt2 (JsVal.objRef jsThisId)
    let wrapper := acq.1
    let rt3 := acq.2
    let invoked :=
      match thisValue with
      | JsVal.objRef i => workletFunction (JsVal.objRef i) args rt3
      | _ => workletFunction JsVal.undefined args rt3
    (invoked.1, JsThisWrapper.release wrapper invoked.2)

/-- `WorkletInvoker::call` with the callable already materialized (from
`WKTJsiWorklet.h`).  The materialization step preceding the `try` block is
total (see `createWorkletJsFunction`); the `try`/`catch` around
`_worklet->call` turns every raised error into `undefined`. -/
def WorkletInvoker.callModel (isRea30Compat : Bool)
    (closureWrapper : Option JsVal) (workletFunction : CallFn)
    (thisValue : JsVal) (args : List JsVal) (rt : Runtime) : JsVal × Runtime :=
  match JsiWorklet.callImpl isRea30Compat closureWrapper workletFunction
      thisValue args rt with
  | (Except.ok v, rt1) => (v, rt1)
  | (Except.error _, rt1) => (JsVal.undefined, rt1)

/-- A worklet body that returns the property `p` of its receiver. -/
def readerThisProp (p : String) : CallFn :=
  fun thisV _ rt =>
    (Except.ok
      (match thisV with
       | JsVal.objRef i => getObjProp rt i p
       | _ => JsVal.undefined), rt)

/-- A worklet body that returns the property `p` of the global ambient
`jsThis` object. -/
def readerGlobalJsThisProp (p : String) : CallFn :=
  fun _ _ rt =>
    (Except.ok
      (match getGlobalProp rt PropNameJsThis with
       | JsVal.objRef i => getObjProp rt i p
       | _ => JsVal.undefined), rt)

/-- A worklet body that touches nothing and returns `v`. -/
def pureBody (v : JsVal) : CallFn :=
  fun _ _ rt => (Except.ok v, rt)

/-- A worklet body that returns its receiver unchanged. -/
def thisReporter : CallFn :=
  fun thisV _ rt => (Except.ok thisV, rt)

/-- A worklet body that raises `e`. -/
def throwBody (e : JSError) : CallFn :=
  fun _ _ rt => (Except.error e, rt)

theorem getObjProp_setObjProp_self (rt : Runtime) (i : Nat) (p : String)
    (v : JsVal) : getObjProp (setObjProp rt i p v) i p = v := by
  simp [getObjProp, setObjProp, heapGet, lookupD_updateA_self]

theorem getObjProp_setObjProp_other (rt : Runtime) (i : Nat) (p q : String)
    (v : JsVal) (h : p ≠ q) :
    getObjProp (setObjProp rt i p v) i q = getObjProp rt i q := by
  simp [getObjProp, setObjProp, heapGet, lookupD_updateA_self,
    lookupD_updateA_ne _ _ _ _ _ h]

theorem globalProps_setObjProp (rt : Runtime) (i : Nat) (p : String)
    (v : JsVal) : (setObjProp rt i p v).globalProps = rt.globalProps := rfl

theorem globalProps_allocObject (rt : Runtime) :
    (allocObject rt).2.globalProps = rt.globalProps := rfl

theorem heap_setGlobalProp (rt : Runtime) (p : String) (v : JsVal) :
    (setGlobalProp rt p v).heap = rt.heap := rfl

theorem getGlobalProp_setGlobalProp_self (rt : Runtime) (p : String)
    (v : JsVal) : getGlobalProp (setGlobalProp rt p v) p = v := by
  simp [getGlobalProp, setGlobalProp, lookupD_updateA_self]

/-- An empty concrete runtime used by the closed witness statements. -/
def rt0 : Runtime :=
  { heap := [], globalProps := [], nextId := 0 }

/-- C1: For every worklet descriptor (encoding variant and closure snapshot)
and every runtime state, if the underlying worklet invocation raises for
the given receiver and argument list, `WorkletInvoker::call` catches the
error and returns the `undefined` sentinel instead of propagating it. -/
theorem worklet_invoker_call_swallows_errors (isRea30Compat : Bool)
    (closureWrapper : Option JsVal) (workletFunction : CallFn)
    (thisValue : JsVal) (args : List JsVal) (rt : Runtime) (e : JSError)
    (h : (JsiWorklet.callImpl isRea30Compat closureWrapper workletFunction
            thisValue args rt).1 = Except.error e) :
    (WorkletInvoker.callModel isRea30Compat closureWrapper workletFunction
        thisValue args rt).1 = JsVal.undefined := by
  unfold WorkletInvoker.callModel
  cases hc : JsiWorklet.callImpl isRea30Compat closureWrapper workletFunction
      thisValue args rt with
  | mk res rt1 =>
      rw [hc] at h
      simp only at h
      cases res with
      | ok v => exact absurd h (by simp)
      | error e0 => simp

/-- Witness for C1: a body that raises is swallowed into `undefined`. -/
theorem worklet_invoker_call_swallows_errors_witness :
    (WorkletInvoker.callModel true none (throwBody { message := "boom" })
        JsVal.undefined [] rt0).1 = JsVal.undefined :=
  worklet_invoker_call_swallows_errors true none
    (throwBody { message := "boom" }) JsVal.undefined [] rt0
    { message := "boom" } (by rfl)

/-- C6: A Legacy-encoding call leaves the global `jsThis` property exactly as
it was before the call, for every worklet body (normal return or raise),
every receiver, every argument list and every starting state: the
`JsThisWrapper` guard restores the saved ambient this unconditionally. -/
theorem legacy_call_restores_jsThis (closureWrapper : Option JsVal)
    (workletFunction : CallFn) (thisValue : JsVal) (args : List JsVal)
    (rt : Runtime) :
    getGlobalProp
        (JsiWorklet.callImpl false closureWrapper workletFunction thisValue
            args rt).2 PropNameJsThis
      = getGlobalProp rt PropNameJsThis := by
  simp only [JsiWorklet.callImpl, Bool.false_eq_true, if_false,
    JsThisWrapper.acquire, JsThisWrapper.release]
  rw [getGlobalProp_setGlobalProp_self]
  split
  · rfl
  · simp [getGlobalProp, setObjProp, allocObject]

theorem isDecoratedAsWorkletFunc_iff (rt : Runtime) (f : JsVal) :
    isDecoratedAsWorkletFunc rt f = true ↔
      ((getProperty rt f PropNameWorkletHash).isString = true ∨
        (((getProperty rt f PropNameWorkletClosure).isUndefinedOrNull = false ∨
            (getProperty rt f PropNameWorkletClosureLegacy).isUndefinedOrNull
              = false) ∧
          ((getProperty rt f PropNameWorkletInitData).isObject = true ∨
            (getProperty rt f PropNameWorkletAsString).isString = true))) := by
  unfold isDecoratedAsWorkletFunc
  by_cases hhash : (getProperty rt f PropNameWorkletHash).isString = true <;>
    by_cases hc1 :
        (getProperty rt f PropNameWorkletClosure).isUndefinedOrNull = true <;>
      by_cases hc2 :
          (getProperty rt f
              PropNameWorkletClosureLegacy).isUndefinedOrNull = true <;>
        by_cases hinit :
            (getProperty rt f PropNameWorkletInitData).isObject = true <;>
          by_cases has :
              (getProperty rt f PropNameWorkletAsString).isString = true <;>
            simp_all

/-- C8: `isDecoratedAsWorklet` returns true if and only if the value is a
function object and either it carries a string worklet-hash marker, or it
carries a non-empty closure under the modern or the legacy property name
together with an init-data object or a string legacy stringified source.
The model function is total, so it yields a boolean on every input and
never raises. -/
theorem isDecoratedAsWorklet_iff (rt : Runtime) (v : JsVal) :
    isDecoratedAsWorklet rt v = true ↔
      (isFunctionObj rt v = true ∧
        ((getProperty rt v PropNameWorkletHash).isString = true ∨
          (((getProperty rt v PropNameWorkletClosure).isUndefinedOrNull
                = false ∨
              (getProperty rt v
                  PropNameWorkletClosureLegacy).isUndefinedOrNull = false) ∧
            ((getProperty rt v PropNameWorkletInitData).isObject = true ∨
              (getProperty rt v PropNameWorkletAsString).isString
                = true)))) := by
  unfold isDecoratedAsWorklet
  by_cases hobj : v.isObject = true
  · by_cases hfn : isFunctionObj rt v = true
    · simp [hobj, hfn, isDecoratedAsWorkletFunc_iff]
    · simp [hobj, hfn]
  · have hfn : isFunctionObj rt v = false := by
      cases v <;> simp_all [JsVal.isObject, isFunctionObj]
    simp [hobj, hfn]

/-- C9: Constructing a descriptor from a value that is not a function object
(primitives, plain objects, dangling references) raises the hard JSError
with the message of the source, rather than producing a soft-invalid
descriptor. -/
theorem createWorklet_non_function_raises (rt : Runtime) (arg : JsVal)
    (h : (arg.isObject && isFunctionObj rt arg) = false) :
    createWorklet rt arg
      = Except.error { message := workletNotAFunctionMessage } := by
  unfold createWorklet
  have hcond : (!arg.isObject || !isFunctionObj rt arg) = true := by
    cases h1 : arg.isObject <;> cases h2 : isFunctionObj rt arg <;> simp_all
  simp [hcond]

/-- Witness for C9: a number is rejected with the hard error. -/
theorem createWorklet_non_function_raises_witness :
    createWorklet rt0 (JsVal.number 5)
      = Except.error { message := workletNotAFunctionMessage } :=
  createWorklet_non_function_raises rt0 (JsVal.number 5) (by rfl)

/-- C3: For every evaluation semantics and every descriptor code that passed
emptiness validation, materialization queries the engine exactly on the
wrapped text `"(" ++ code ++ "\n)"`; when evaluation raises, returns a
non-object, or returns a non-callable object, the error is not propagated
and the inert `noopWorklet` is produced instead, and `noopWorklet` returns
the `undefined` sentinel on every argument list. -/
theorem createWorkletJsFunction_spec (evalJs : EvalFn) (rt : Runtime)
    (code : String)
    (hvalid : (isWhitespaceOnly code || decide (code.length ≤ 3)) = false) :
    createWorkletJsFunction evalJs rt code =
        (match evalJs rt ("(" ++ code ++ "\n)") with
         | (Except.ok v, rt1) =>
             if v.isObject && isFunctionObj rt1 v then
               (WorkletJsFunction.real v, rt1)
             else (WorkletJsFunction.noop, rt1)
         | (Except.error _, rt1) => (WorkletJsFunction.noop, rt1))
      ∧ ∀ args : List JsVal, noopWorkletCall args = JsVal.undefined := by
  constructor
  · simp only [createWorkletJsFunction, evaluteJavascriptInWorkletRuntime,
      hvalid, Bool.false_eq_true, if_false]
    cases hev : evalJs rt ("(" ++ code ++ "\n)") with
    | mk res rt1 =>
        cases res with
        | ok v =>
            by_cases h1 : v.isObject = true
            · by_cases h2 : isFunctionObj rt1 v = true
              · simp [h1, h2]
              · simp [h1, h2]
            · simp [h1]
        | error e => simp [JsVal.isObject]
  · intro args
    rfl

/-- An evaluation semantics that always raises, used as the C3 witness. -/
def evalAlwaysThrows : EvalFn :=
  fun rt _ => (Except.error { message := "SyntaxError" }, rt)

/-- Witness for C3: under an always-raising engine, materialization of a
valid code string yields the no-op callable without raising, and the no-op
returns `undefined`. -/
theorem createWorkletJsFunction_spec_witness :
    createWorkletJsFunction evalAlwaysThrows rt0 "function f()"
        = (WorkletJsFunction.noop, rt0)
      ∧ noopWorkletCall [JsVal.number 1] = JsVal.undefined := by
  have h := createWorkletJsFunction_spec evalAlwaysThrows rt0 "function f()"
    (by decide)
  exact ⟨h.1, h.2 [JsVal.number 1]⟩

theorem finishWorklet_error_iff (rt : Runtime) (func : JsVal)
    (w : JsiWorklet) :
    finishWorklet rt func w
        = Except.error { message := workletEmptyCodeMessage } ↔
      (isWhitespaceOnly w.code || decide (w.code.length ≤ 3)) = true := by
  unfold finishWorklet
  by_cases h0 : isWhitespaceOnly w.code = true
  · simp [h0]
  · by_cases h1 : w.code.length ≤ 3
    · simp [h0, h1]
    · simp [h0, h1]

/-- A captured function in Modern encoding whose code is `" abc"`: raw
length 4 but trimmed length 3.  Object 0 is the function, object 1 its
init-data object. -/
def c2Runtime : Runtime :=
  { heap :=
      [(0, { isFunction := true,
             props := [(PropNameWorkletInitData, JsVal.objRef 1)] }),
       (1, { isFunction := false,
             props := [(PropNameWorkletInitDataLocation, JsVal.string "loc"),
                       (PropNameWorkletInitDataCode,
                        JsVal.string " abc")] })],
    globalProps := [], nextId := 2 }

/-- Counterexample to C2: the code `" abc"` has trimmed length 3 (≤ 3), so
the claim demands a ValidationError, yet construction succeeds — the
source's length test is on the raw, untrimmed length (4 here), and the
whitespace test does not fire either. -/
theorem createWorklet_trimmed_length_counterexample :
    trimmedLength " abc" ≤ 3 ∧
      createWorklet c2Runtime (JsVal.objRef 0) =
        Except.ok
          { isWorklet := true, code := " abc", location := "loc",
            name := "fn", isRea30Compat := true, closureWrapper := none } := by
  constructor
  · decide
  · rfl

/-- C2 (amended): construction raises the empty-code ValidationError iff an
encoding was selected and the selected code is entirely whitespace or its
raw, untrimmed length is ≤ 3.  The length test is not applied to the
trimmed text: a code string of raw length > 3 whose trimmed length is ≤ 3
does not raise. -/
theorem createWorklet_validation_iff (rt : Runtime) (fv : JsVal)
    (hfn : (fv.isObject && isFunctionObj rt fv) = true) :
    createWorklet rt fv
        = Except.error { message := workletEmptyCodeMessage } ↔
      (∃ c, parsedCode rt fv = some c ∧
        (isWhitespaceOnly c || decide (c.length ≤ 3)) = true) := by
  have hnot : (!fv.isObject || !isFunctionObj rt fv) = false := by
    cases h1 : fv.isObject <;> cases h2 : isFunctionObj rt fv <;> simp_all
  unfold createWorklet
  rw [hnot]
  simp only [Bool.false_eq_true, if_false]
  by_cases hA : (getProperty rt fv PropNameWorkletInitData).isObject = true
  · by_cases hB : (getProperty rt (getProperty rt fv PropNameWorkletInitData)
        PropNameWorkletInitDataLocation).isString = true
    · by_cases hC : (getProperty rt (getProperty rt fv PropNameWorkletInitData)
          PropNameWorkletInitDataCode).isString = true
      · simp only [createWorkletFromFunc, parsedCode, hA, hB, hC, if_true]
        rw [finishWorklet_error_iff]
        simp
      · simp [createWorkletFromFunc, parsedCode, hA, hB, hC]
    · simp [createWorkletFromFunc, parsedCode, hA, hB]
  · by_cases hD : ((getProperty rt fv PropNameWorkletAsString).isString &&
        (getProperty rt fv PropNameWorkletLocation).isString) = true
    · simp only [createWorkletFromFunc, parsedCode, hA, hD, if_true,
        Bool.false_eq_true, if_false]
      rw [finishWorklet_error_iff]
      simp
    · simp [createWorkletFromFunc, parsedCode, hA, hD]

/-- A Legacy-encoding captured function with code `"()"` (length 2). -/
def c2WitnessRuntime : Runtime :=
  { heap :=
      [(0, { isFunction := true,
             props := [(PropNameWorkletAsString, JsVal.string "()"),
                       (PropNameWorkletLocation,
                        JsVal.string "app.js:1")] })],
    globalProps := [], nextId := 1 }

/-- Witness for the amended C2: code of raw length 2 raises the
ValidationError. -/
theorem createWorklet_validation_iff_witness :
    createWorklet c2WitnessRuntime (JsVal.objRef 0)
      = Except.error { message := workletEmptyCodeMessage } :=
  (createWorklet_validation_iff c2WitnessRuntime (JsVal.objRef 0)
      (by rfl)).mpr ⟨"()", by rfl, by decide⟩

theorem finishWorklet_ok_fields (rt : Runtime) (func : JsVal) (w : JsiWorklet)
    (hvalid : (isWhitespaceOnly w.code || decide (w.code.length ≤ 3))
        = false) :
    resultRaises (finishWorklet rt func w) = false ∧
      resultIsWorklet (finishWorklet rt func w) = true ∧
      resultIsModern (finishWorklet rt func w) = w.isRea30Compat := by
  have h0 : isWhitespaceOnly w.code = false := by
    cases hx : isWhitespaceOnly w.code <;> simp_all
  have h1 : ¬ w.code.length ≤ 3 := by
    intro hle
    rw [h0] at hvalid
    simp [hle] at hvalid
  unfold finishWorklet
  simp only [h0, h1, decide_eq_true_eq, Bool.not_false, Bool.true_and,
    decide_eq_false h1, Bool.and_false, Bool.false_eq_true, if_false]
  split <;> split <;> (try split) <;>
    simp [resultRaises, resultIsWorklet, resultIsModern]

/-- C4: Modern-encoding parsing.  For every captured function whose
init-data object carries string `location` and `code` fields with code
passing emptiness validation, construction succeeds (no error) and the
descriptor's encoding variant is Modern; and whenever the init-data object
is present but its `code` field is missing or not a string, construction
returns a soft-invalid descriptor (`isWorklet()` false) without raising. -/
theorem createWorklet_modern_parsing (rt : Runtime) (fv : JsVal) :
    (((getProperty rt fv PropNameWorkletInitData).isObject = true) →
      ((getProperty rt (getProperty rt fv PropNameWorkletInitData)
          PropNameWorkletInitDataLocation).isString = true) →
      ((getProperty rt (getProperty rt fv PropNameWorkletInitData)
          PropNameWorkletInitDataCode).isString = true) →
      ((isWhitespaceOnly ((getProperty rt
              (getProperty rt fv PropNameWorkletInitData)
              PropNameWorkletInitDataCode).asStringD) ||
          decide (((getProperty rt
              (getProperty rt fv PropNameWorkletInitData)
              PropNameWorkletInitDataCode).asStringD).length ≤ 3)) = false) →
      (resultRaises (createWorkletFromFunc rt fv) = false ∧
        resultIsWorklet (createWorkletFromFunc rt fv) = true ∧
        resultIsModern (createWorkletFromFunc rt fv) = true)) ∧
    (((getProperty rt fv PropNameWorkletInitData).isObject = true) →
      ((getProperty rt (getProperty rt fv PropNameWorkletInitData)
          PropNameWorkletInitDataCode).isString = false) →
      (resultRaises (createWorkletFromFunc rt fv) = false ∧
        resultIsWorklet (createWorkletFromFunc rt fv) = false)) := by
  constructor
  · intro hA hB hC hvalid
    have h := finishWorklet_ok_fields rt fv
      { initialWorklet with
          location := (getProperty rt (getProperty rt fv PropNameWorkletInitData)
              PropNameWorkletInitDataLocation).asStringD,
          code := (getProperty rt (getProperty rt fv PropNameWorkletInitData)
              PropNameWorkletInitDataCode).asStringD,
          isRea30Compat := true } hvalid
    simp only [createWorkletFromFunc, hA, hB, hC, if_true]
    exact h
  · intro hA hC
    by_cases hB : (getProperty rt (getProperty rt fv PropNameWorkletInitData)
        PropNameWorkletInitDataLocation).isString = true
    · simp [createWorkletFromFunc, hA, hB, hC, resultRaises, resultIsWorklet,
        initialWorklet]
    · simp [createWorkletFromFunc, hA, hB, resultRaises, resultIsWorklet,
        initialWorklet]

/-- A well-formed Modern captured function used as the C4 witness: object 0
is the function, object 1 its init data with a long enough code string;
object 2 is a malformed variant whose code field is a number. -/
def c4Runtime : Runtime :=
  { heap :=
      [(0, { isFunction := true,
             props := [(PropNameWorkletInitData, JsVal.objRef 1)] }),
       (1, { isFunction := false,
             props := [(PropNameWorkletInitDataLocation,
                        JsVal.string "app.js:10"),
                       (PropNameWorkletInitDataCode,
                        JsVal.string "function add(a, b) return a + b")] }),
       (2, { isFunction := true,
             props := [(PropNameWorkletInitData, JsVal.objRef 3)] }),
       (3, { isFunction := false,
             props := [(PropNameWorkletInitDataLocation,
                        JsVal.string "app.js:11"),
                       (PropNameWorkletInitDataCode, JsVal.number 7)] })],
    globalProps := [], nextId := 4 }

/-- Witness for C4: the well-formed Modern function constructs a Modern
descriptor, and the variant with a numeric code field yields a
soft-invalid descriptor without raising. -/
theorem createWorklet_modern_parsing_witness :
    (resultIsWorklet (createWorkletFromFunc c4Runtime (JsVal.objRef 0)) = true
      ∧ resultIsModern (createWorkletFromFunc c4Runtime (JsVal.objRef 0))
          = true)
    ∧ (resultRaises (createWorkletFromFunc c4Runtime (JsVal.objRef 2)) = false
      ∧ resultIsWorklet (createWorkletFromFunc c4Runtime (JsVal.objRef 2))
          = false) := by
  have h1 := (createWorklet_modern_parsing c4Runtime (JsVal.objRef 0)).1
    (by rfl) (by rfl) (by rfl) (by decide)
  have h2 := (createWorklet_modern_parsing c4Runtime (JsVal.objRef 2)).2
    (by rfl) (by rfl)
  exact ⟨⟨h1.2.1, h1.2.2⟩, h2⟩

/-- A Modern captured function whose init data has a code string but no
location field at all. -/
def c5Runtime : Runtime :=
  { heap :=
      [(0, { isFunction := true,
             props := [(PropNameWorkletInitData, JsVal.objRef 1)] }),
       (1, { isFunction := false,
             props := [(PropNameWorkletInitDataCode,
                        JsVal.string "function tick() return 42")] })],
    globalProps := [], nextId := 2 }

/-- Counterexample to C5: with valid string code but no string location the
claim demands a successful descriptor whose origin location is
`"(unknown)"`; the source instead fails softly — the descriptor is not a
worklet, no error is raised, and the location stays empty. -/
theorem createWorklet_missing_location_counterexample :
    resultRaises (createWorklet c5Runtime (JsVal.objRef 0)) = false ∧
      resultIsWorklet (createWorklet c5Runtime (JsVal.objRef 0)) = false ∧
      resultLocation (createWorklet c5Runtime (JsVal.objRef 0)) = "" := by
  refine ⟨?_, ?_, ?_⟩ <;> rfl

/-- C5 (amended): for every Modern-encoding captured function whose
init-data object lacks a string location field, construction returns the
soft-invalid descriptor unchanged from its reset state — `isWorklet()`
false, empty code and empty origin location — regardless of the code
field; the origin location is never defaulted to `"(unknown)"`. -/
theorem createWorklet_missing_location_soft_invalid (rt : Runtime)
    (fv : JsVal)
    (hA : (getProperty rt fv PropNameWorkletInitData).isObject = true)
    (hB : (getProperty rt (getProperty rt fv PropNameWorkletInitData)
        PropNameWorkletInitDataLocation).isString = false) :
    createWorkletFromFunc rt fv = Except.ok initialWorklet ∧
      initialWorklet.isWorklet = false ∧ initialWorklet.location = "" := by
  refine ⟨?_, rfl, rfl⟩
  simp [createWorkletFromFunc, hA, hB]

/-- A Modern captured function whose init data carries a numeric location. -/
def c5WitnessRuntime : Runtime :=
  { heap :=
      [(0, { isFunction := true,
             props := [(PropNameWorkletInitData, JsVal.objRef 1)] }),
       (1, { isFunction := false,
             props := [(PropNameWorkletInitDataLocation, JsVal.number 3),
                       (PropNameWorkletInitDataCode,
                        JsVal.string "function tock() return 43")] })],
    globalProps := [], nextId := 2 }

/-- Witness for the amended C5: a numeric location field yields the
soft-invalid reset descriptor. -/
theorem createWorklet_missing_location_soft_invalid_witness :
    createWorkletFromFunc c5WitnessRuntime (JsVal.objRef 0)
      = Except.ok initialWorklet :=
  (createWorklet_missing_location_soft_invalid c5WitnessRuntime
      (JsVal.objRef 0) (by rfl) (by rfl)).1

theorem getObjProp_setGlobalProp (rt : Runtime) (p : String) (v : JsVal)
    (i : Nat) (q : String) :
    getObjProp (setGlobalProp rt p v) i q = getObjProp rt i q := rfl

theorem getObjProp_dual_write_modern (rt : Runtime) (i : Nat) (u : JsVal) :
    getObjProp
        (setObjProp (setObjProp rt i PropNameWorkletClosure u) i
          PropNameWorkletClosureLegacy u) i PropNameWorkletClosure = u := by
  rw [getObjProp_setObjProp_other _ _ _ _ _
        (show PropNameWorkletClosureLegacy ≠ PropNameWorkletClosure
          by decide),
      getObjProp_setObjProp_self]

theorem getObjProp_dual_write_legacy (rt : Runtime) (i : Nat) (u : JsVal) :
    getObjProp
        (setObjProp (setObjProp rt i PropNameWorkletClosure u) i
          PropNameWorkletClosureLegacy u) i PropNameWorkletClosureLegacy
      = u :=
  getObjProp_setObjProp_self _ _ _ _

/-- C7: Call-time closure injection.  When the descriptor's unwrapped closure
is non-empty, both encoding variants write the same unwrapped value under
the modern (`_closure`) and the legacy (`__closure`) property name on the
call-context object, so a worklet body reading either name — through its
receiver in Modern mode, or through the ambient global `jsThis` in Legacy
mode — observes the injected closure value.  When the closure is empty
(undefined or null), neither property is written: a Modern call on an
object receiver leaves the runtime state untouched, and the Legacy
`jsThis` object is created without any properties. -/
theorem call_closure_dual_write (cw : Option JsVal) (c thisV v : JsVal)
    (args : List JsVal) (rt : Runtime) (i : Nat) :
    ((unwrappedClosureOf (some c)).isUndefinedOrNull = false →
      ((JsiWorklet.callImpl true (some c)
          (readerThisProp PropNameWorkletClosure) thisV args rt).1
            = Except.ok c ∧
       (JsiWorklet.callImpl true (some c)
          (readerThisProp PropNameWorkletClosureLegacy) thisV args rt).1
            = Except.ok c ∧
       (JsiWorklet.callImpl false (some c)
          (readerGlobalJsThisProp PropNameWorkletClosure) thisV args rt).1
            = Except.ok c ∧
       (JsiWorklet.callImpl false (some c)
          (readerGlobalJsThisProp PropNameWorkletClosureLegacy) thisV args
            rt).1 = Except.ok c)) ∧
    ((unwrappedClosureOf cw).isUndefinedOrNull = true →
      ((JsiWorklet.callImpl true cw (pureBody v) (JsVal.objRef i) args rt).2
          = rt ∧
       (heapGet
          ((JsiWorklet.callImpl false cw (pureBody v) thisV args rt).2).heap
          rt.nextId).props = [])) := by
  constructor
  · intro hne
    have hu : unwrappedClosureOf (some c) = c := rfl
    rw [hu] at hne
    refine ⟨?_, ?_, ?_, ?_⟩ <;>
      cases thisV <;>
        simp [JsiWorklet.callImpl, readerThisProp, readerGlobalJsThisProp,
          unwrappedClosureOf, JsiWrapper.unwrap, JsThisWrapper.acquire,
          JsThisWrapper.release, hne, getObjProp_dual_write_modern,
          getObjProp_dual_write_legacy, getGlobalProp_setGlobalProp_self,
          getObjProp_setGlobalProp]
  · intro hemp
    constructor
    · simp [JsiWorklet.callImpl, pureBody, hemp]
    · cases thisV <;>
        simp [JsiWorklet.callImpl, pureBody, hemp, JsThisWrapper.acquire,
          JsThisWrapper.release, setGlobalProp, allocObject, heapGet,
          lookupD_updateA_self]

/-- A concrete closure-carrying setup for the C7 witness. -/
def c7Runtime : Runtime :=
  { heap := [], globalProps := [(PropNameJsThis, JsVal.null)], nextId := 5 }

/-- Witness for C7: a numeric closure value is observed by a body reading
the modern property name in Modern mode and by a body reading the legacy
property name through the ambient `jsThis` in Legacy mode; with an absent
closure a Modern call on an object receiver leaves the state unchanged. -/
theorem call_closure_dual_write_witness :
    (JsiWorklet.callImpl true (some (JsVal.number 42))
        (readerThisProp PropNameWorkletClosure) JsVal.undefined []
        c7Runtime).1 = Except.ok (JsVal.number 42)
    ∧ (JsiWorklet.callImpl false (some (JsVal.number 42))
        (readerGlobalJsThisProp PropNameWorkletClosureLegacy) JsVal.undefined
        [] c7Runtime).1 = Except.ok (JsVal.number 42)
    ∧ (JsiWorklet.callImpl true none (pureBody JsVal.null) (JsVal.objRef 0)
        [] c7Runtime).2 = c7Runtime := by
  have h := call_closure_dual_write none (JsVal.number 42) JsVal.undefined
    JsVal.null [] c7Runtime 0
  have h1 := h.1 (by decide)
  have h2 := h.2 (by decide)
  exact ⟨h1.1, h1.2.2.2, h2.1⟩

/-- C10: In Modern mode with an object receiver and a non-empty closure, the
caller's `thisArg` object itself is reused as the call context (the body
receives exactly the caller's object reference, not a copy), and after the
call returns, the caller's object carries the unwrapped closure value
under both the `_closure` and the `__closure` property names. -/
theorem modern_call_mutates_thisArg (c v : JsVal) (args : List JsVal)
    (rt : Runtime) (i : Nat)
    (hne : (unwrappedClosureOf (some c)).isUndefinedOrNull = false) :
    (JsiWorklet.callImpl true (some c) thisReporter (JsVal.objRef i) args
        rt).1 = Except.ok (JsVal.objRef i) ∧
    getObjProp
        ((JsiWorklet.callImpl true (some c) (pureBody v) (JsVal.objRef i)
            args rt).2) i PropNameWorkletClosure = c ∧
    getObjProp
        ((JsiWorklet.callImpl true (some c) (pureBody v) (JsVal.objRef i)
            args rt).2) i PropNameWorkletClosureLegacy = c := by
  have hu : unwrappedClosureOf (some c) = c := rfl
  rw [hu] at hne
  refine ⟨?_, ?_, ?_⟩ <;>
    simp [JsiWorklet.callImpl, thisReporter, pureBody, unwrappedClosureOf,
      JsiWrapper.unwrap, hne, getObjProp_dual_write_modern,
      getObjProp_dual_write_legacy]

/-- A caller-provided receiver object with a pre-existing property. -/
def c10Runtime : Runtime :=
  { heap := [(0, { isFunction := false, props := [("x", JsVal.number 1)] })],
    globalProps := [], nextId := 1 }

/-- Witness for C10: after a Modern call with receiver object 0 and closure
`7`, object 0 carries the closure under both property names, and the body
received object 0 itself. -/
theorem modern_call_mutates_thisArg_witness :
    (JsiWorklet.callImpl true (some (JsVal.number 7)) thisReporter
        (JsVal.objRef 0) [] c10Runtime).1 = Except.ok (JsVal.objRef 0) ∧
    getObjProp
        ((JsiWorklet.callImpl true (some (JsVal.number 7))
            (pureBody JsVal.null) (JsVal.objRef 0) [] c10Runtime).2) 0
        PropNameWorkletClosure = JsVal.number 7 :=
  have h := modern_call_mutates_thisArg (JsVal.number 7) JsVal.null []
    c10Runtime 0 (by decide)
  ⟨h.1, h.2.1⟩

end RNWorklet
